import Mathlib

/-!
Verification of the Trackdechets registry-export tool
(`src/trackdechets_client.py` and `src/app.py`) against its
natural-language specification.

The Python code is shallowly embedded: server responses are supplied
through explicit oracle records (`Resp`, `FetchEnv`), the Streamlit
session state through explicit records, and the wall clock of the poll
loop through an explicit elapsed-seconds counter.  All definitions are
computable so that concrete runs can be settled by `decide`.
-/

/-- Outcome of one HTTP/GraphQL exchange: either a value, or a
`TrackdechetsError` carrying the error message (`_post` raises
`TrackdechetsError` on transport failure, non-2xx, non-JSON body, or a
GraphQL `errors` array). -/
inductive Resp (α : Type) where
  | ok (val : α)
  | fail (msg : String)
deriving DecidableEq, Repr

/-- `RegistryExport` dataclass of `trackdechets_client.py`: the job id and
status returned by the `generateRegistryV2Export` mutation. -/
structure RegistryExport where
  export_id : String
  status : String
deriving DecidableEq, Repr

/-- `TrackdechetsClient.generate_registry_export`
(`src/trackdechets_client.py:148-195`).  The mutation is attempted with
the `{gte, lte}` date-range keys first and, only if that attempt raises
`TrackdechetsError`, once more with `{_gte, _lte}`; if both fail the last
error is re-raised.  `r1` and `r2` are the server's answers to the first
and second request shape.  The second component counts the requests sent. -/
def generate_registry_export (r1 r2 : Resp RegistryExport) : Resp RegistryExport × Nat :=
  match r1 with
  | .ok e => (.ok e, 1)
  | .fail _ =>
    match r2 with
    | .ok e => (.ok e, 2)
    | .fail m2 => (.fail m2, 2)

/-- The loop guard of `fetch_registry` (`src/app.py:289`):
`status not in {"SUCCESSFUL", "FAILED", "CANCELED"}`. -/
def isTerminal (s : String) : Bool :=
  s == "SUCCESSFUL" || s == "FAILED" || s == "CANCELED"

/-- The post-loop test of `fetch_registry` (`src/app.py:300`):
`status in {"FAILED", "CANCELED"}`. -/
def isFailedTerminal (s : String) : Bool :=
  s == "FAILED" || s == "CANCELED"

/-- How the poll loop of `fetch_registry` (`src/app.py:285-302`) ended. -/
inductive PollExit where
  | success
  | jobFailed
  | timeout
  | pollApiError (msg : String)
deriving DecidableEq, Repr

/-- Result of the poll loop: how it exited, how many
`get_registry_export_status` calls it made, the statuses those calls
returned (in order), and the value of the `status` variable at exit. -/
structure PollOut where
  exit : PollExit
  polls : Nat
  obs : List String
  final : String
deriving DecidableEq, Repr

/-- The poll loop of `fetch_registry` (`src/app.py:285-299`):

```
status = export.status; start_time = time.time(); timeout_seconds = 180
while status not in {"SUCCESSFUL", "FAILED", "CANCELED"}:
    if time.time() - start_time > timeout_seconds: return timeout
    time.sleep(5)
    status = client.get_registry_export_status(export.export_id)  # may raise
```

`poll j` is the server's answer to the `j`-th status call, `extra j ≥ 0`
the latency of iteration `j` beyond the 5-second sleep, `elapsed` the
wall-clock seconds since `start_time`, `i` the number of polls made so
far and `obs` the statuses observed so far.  The Python loop has no
`fuel` argument; termination is forced by the 180-second budget, which
caps the loop at 37 polls, so with the top-level fuel of 38
(`pollLoop`) the fuel-zero branch is unreachable — this is certified by
`pollLoopGo_fuel_irrelevant` and `pollLoopGo_polls_le`.  The fuel-zero
branch mirrors the timeout outcome. -/
def pollLoopGo (poll : Nat → Resp String) (extra : Nat → Nat) :
    Nat → String → Nat → Nat → List String → PollOut
  | 0, status, i, _, obs => ⟨.timeout, i, obs, status⟩
  | fuel+1, status, i, elapsed, obs =>
    if isTerminal status then
      if isFailedTerminal status then ⟨.jobFailed, i, obs, status⟩
      else ⟨.success, i, obs, status⟩
    else if 180 < elapsed then ⟨.timeout, i, obs, status⟩
    else
      match poll (i+1) with
      | .fail m => ⟨.pollApiError m, i+1, obs, status⟩
      | .ok s => pollLoopGo poll extra fuel s (i+1) (elapsed + 5 + extra (i+1)) (obs ++ [s])

/-- Entry point of the poll loop: the `status` variable starts at the
status the generation mutation returned, the clock at `0`. -/
def pollLoop (poll : Nat → Resp String) (extra : Nat → Nat) (status : String) : PollOut :=
  pollLoopGo poll extra 38 status 0 0 []

/-- Upper bound on the number of further polls the loop can make when the
elapsed clock reads `elapsed`: the budget check `elapsed > 180` fires
before each sleep, and each iteration advances the clock by at least 5
seconds. -/
def pollBudget (elapsed : Nat) : Nat :=
  if 180 < elapsed then 0 else (180 - elapsed) / 5 + 1

/-- An entry of the `st.session_state.last_export_by_type` dict
(`src/app.py:277-282`): the dict value `{"id": ..., "siret": ...,
"start": ..., "end": ...}`. -/
structure CacheEntry where
  id : String
  siret : String
  start : String
  end_ : String
deriving DecidableEq, Repr

/-- `st.session_state.last_export_by_type`: a dict keyed by the registry
type (`"INCOMING"` / `"OUTGOING"`), embedded as an association list. -/
abbrev LastExportCache : Type := List (String × CacheEntry)

/-- Dict read `last_export_by_type.get(registry_type, {})` — `none` plays
the role of the empty-dict default (all of whose `.get` fields are
`None`, so the recovery guard of `src/app.py:251-256` fails). -/
def cacheGet (c : LastExportCache) (k : String) : Option CacheEntry :=
  match List.find? (fun p => p.fst == k) c with
  | some p => some p.snd
  | none => none

/-- Dict write `last_export_by_type[registry_type] = {...}`
(`src/app.py:277`): overwrites the entry for that registry type. -/
def cacheSet (c : LastExportCache) (k : String) (e : CacheEntry) : LastExportCache :=
  (k, e) :: List.filter (fun p => p.fst != k) c

/-- The recovery guard of `src/app.py:250-256`: the cached entry for this
registry type is usable only if its `siret`, `start` and `end` fields
equal the current request's and its `id` is non-empty (truthy). -/
def cacheHit (c : LastExportCache) (k siret start_iso end_iso : String) : Option CacheEntry :=
  match cacheGet c k with
  | none => none
  | some last =>
    if last.siret == siret && last.start == start_iso && last.end_ == end_iso
        && last.id != "" then some last
    else none

/-- Does `hay` start with `needle`? (helper for the substring test). -/
def charsStartWith : List Char → List Char → Bool
  | _, [] => true
  | [], _ :: _ => false
  | b :: bs, a :: as => a == b && charsStartWith bs as

/-- Does `needle` occur contiguously in `hay`? -/
def charsContain : List Char → List Char → Bool
  | [], needle => needle.isEmpty
  | b :: bs, needle => charsStartWith (b :: bs) needle || charsContain bs needle

/-- Python's substring test `needle in hay` on strings. -/
def strContains (hay needle : String) : Bool :=
  charsContain hay.data needle.data

/-- The cooldown-conflict indication `fetch_registry` looks for in the
error message (`src/app.py:249`). -/
def cooldownNeedle : String := "moins de 5 minutes"

/-- A spreadsheet cell as seen by the pandas post-processing: a string, an
integer, or a missing value (`NaN`). -/
inductive CellValue where
  | str (v : String)
  | int (v : Int)
  | na
deriving DecidableEq, Repr

/-- pandas `astype(str)` on one cell (`src/app.py:73`): strings are kept,
numbers rendered in decimal, missing values become `"nan"`. -/
def cellToStr : CellValue → String
  | .str v => v
  | .int v => toString v
  | .na => "nan"

/-- The parsed tabular dataset (`pd.read_excel` result): named columns and
ordered rows; row `r` holds the cell of column `j` at position `j`. -/
structure DataFrame where
  headers : List String
  rows : List (List CellValue)
deriving DecidableEq, Repr

/-- `normalize_header` (`src/app.py:57-58`): `header.strip().lower()`,
embedded on the character list — strip drops leading and trailing
whitespace, lower maps each character to lower case (`Char.toLower`
lowers the ASCII range; Python's `lower` also lowers non-ASCII letters,
but every alias the filters search for is already lower case, with only
the lower-case `é` beyond ASCII, so the difference is immaterial here). -/
def normalize_header (header : String) : String :=
  String.mk (List.map Char.toLower
    (((header.data.dropWhile Char.isWhitespace).reverse.dropWhile
        Char.isWhitespace).reverse))

/-- One lookup in the dict comprehension
`{normalize_header(col): col for col in columns}` (`src/app.py:62`,
`src/app.py:370`): for a duplicate normalized header the later column
wins, hence `getLast?`. -/
def lookupNormalized (columns : List String) (key : String) : Option String :=
  List.getLast? (List.filter (fun c => normalize_header c == key) columns)

/-- `BSD_TYPE_COLUMN_CANDIDATES` (`src/app.py:30-38`). -/
def BSD_TYPE_COLUMN_CANDIDATES : List String :=
  ["bsdtype", "bsd_type", "type de bordereau", "type de bsd",
   "type bordereau", "type de déchet", "type"]

/-- `find_bsd_type_column` (`src/app.py:61-66`): first candidate, in the
fixed order, that appears among the normalized headers. -/
def find_bsd_type_column (columns : List String) : Option String :=
  List.findSome? (lookupNormalized columns) BSD_TYPE_COLUMN_CANDIDATES

/-- `filter_by_bsd_type` (`src/app.py:69-73`): if a type column is found,
keep the rows whose cell in it, converted to a string, is one of the
selected types (`df[df[column].astype(str).isin(selected_types)]`);
otherwise return the dataframe unchanged.  The function's only output is
the dataframe — no "could not filter" indication is produced. -/
def filter_by_bsd_type (df : DataFrame) (selected_types : List String) : DataFrame :=
  match find_bsd_type_column df.headers with
  | none => df
  | some column =>
    match List.findIdx? (fun h => h == column) df.headers with
    | none => df
    | some j =>
      ⟨df.headers,
       List.filter (fun r => List.contains selected_types (cellToStr (r.getD j .na))) df.rows⟩

/-- Modelled from the spec: the type filter as §4.1 of the spec words it,
which in addition to the (possibly unchanged) dataset must "signal that
filtering could not be applied" when no recognized header alias matches —
the Boolean is that signal (`true` = filtering was applied).  The source
`filter_by_bsd_type` has no such output; this definition exists to be
compared with it. -/
def filter_by_bsd_type_spec (df : DataFrame) (selected_types : List String) :
    DataFrame × Bool :=
  match find_bsd_type_column df.headers with
  | none => (df, false)
  | some column =>
    match List.findIdx? (fun h => h == column) df.headers with
    | none => (df, false)
    | some j =>
      (⟨df.headers,
        List.filter (fun r => List.contains selected_types (cellToStr (r.getD j .na))) df.rows⟩,
       true)

/-- `filter_by_date` (`src/app.py:357-380`).  `parse` stands for
`pd.to_datetime(..., errors="coerce")` on one cell — an external pandas
parser, embedded as a parameter; `none` is `NaT` and dates are day
ordinals.  An empty dataset is returned as is (`df.empty` guard); the
date column is the first candidate, in the fixed order below, matching a
normalized header; rows whose cell does not parse are dropped (`NaT`
comparisons are false) and parseable rows are kept iff the date lies in
the inclusive range. -/
def filter_by_date (parse : CellValue → Option Nat) (df : DataFrame)
    (start_date end_date : Nat) : DataFrame :=
  if df.rows.isEmpty then df
  else
    let candidates := ["date", "date de creation", "date de reception",
      "date de prise en charge", "date d'envoi", "date d'emission",
      "createdat", "date creation"]
    match List.findSome? (lookupNormalized df.headers) candidates with
    | none => df
    | some date_col =>
      match List.findIdx? (fun h => h == date_col) df.headers with
      | none => df
      | some j =>
        ⟨df.headers,
         List.filter (fun r =>
           match parse (r.getD j .na) with
           | none => false
           | some d => decide (start_date ≤ d) && decide (d ≤ end_date)) df.rows⟩

/-- The payload dict `fetch_registry` builds and caches on success
(`src/app.py:317-322`): the raw bytes, the parsed row count (`0` when
`pd.read_excel` failed), the registry type and the parsed dataframe. -/
structure Payload where
  bytes : List Nat
  rows : Nat
  registry_type : String
  df : Option DataFrame
deriving DecidableEq, Repr

/-- Oracle for one `fetch_registry` call: the server's answers to every
request the orchestrator might send.  `gen1`/`gen2` answer the two
date-range shapes of `generate_registry_export`; `pollResp j` answers the
`j`-th status poll and `pollExtra j` is that iteration's latency beyond
the 5-second sleep; `urlFor` answers the signed-URL query by export id;
`bytesFor` answers the file download by URL; `parse` stands for
`pd.read_excel` (best effort, `none` = parse failure). -/
structure FetchEnv where
  gen1 : Resp RegistryExport
  gen2 : Resp RegistryExport
  pollResp : Nat → Resp String
  pollExtra : Nat → Nat
  urlFor : String → Resp String
  bytesFor : String → Resp (List Nat)
  parse : List Nat → Option DataFrame

/-- Which `st.error`/`st.warning` ended a failed `fetch_registry` call
(the Python function returns `{"error": True}` in each case; the
constructor records which message was shown and, where the message embeds
the exception text, that text verbatim). -/
inductive FetchErr where
  | apiError (msg : String)
  | cooldownConflict
  | recoveryError (msg : String)
  | launchFailed
  | timeout
  | jobFailed
deriving DecidableEq, Repr

/-- Result of `fetch_registry`: the payload or the error shown. -/
inductive FetchOutcome where
  | ok (p : Payload)
  | err (e : FetchErr)
deriving DecidableEq, Repr

/-- Everything observable about one `fetch_registry` call: its outcome,
the session caches after it, and a trace of the client calls it made —
the number of status polls, the export ids sent to the signed-URL query,
the number of file downloads, the `(export id, status)` pairs the server
actually reported (the generation answer and every poll answer; the
fabricated `SUCCESSFUL` of the recovery path is not an observation), and
whether the cooldown-recovery path (`reuse_download`) was taken. -/
structure FetchRes where
  outcome : FetchOutcome
  lastExports : LastExportCache
  memo : List (String × Payload)
  polls : Nat
  urlRequests : List String
  downloadRequests : Nat
  statusObs : List (String × String)
  recovered : Bool
deriving Repr

/-- Read of the `st.session_state.registry_cache` dict (`src/app.py:232`). -/
def memoLookup (memo : List (String × Payload)) (key : String) : Option Payload :=
  match List.find? (fun p => p.fst == key) memo with
  | some p => some p.snd
  | none => none

/-- Write to the `st.session_state.registry_cache` dict (`src/app.py:323`). -/
def memoInsert (memo : List (String × Payload)) (key : String) (payload : Payload) :
    List (String × Payload) :=
  (key, payload) :: List.filter (fun p => p.fst != key) memo

/-- The memo key `f"{siret}|{start_iso}|{end_iso}|{registry_type}"`
(`src/app.py:228-231`). -/
def cacheKey (siret start_iso end_iso registry_type : String) : String :=
  siret ++ "|" ++ start_iso ++ "|" ++ end_iso ++ "|" ++ registry_type

/-- `pd.read_excel` + payload construction (`src/app.py:310-322`):
`rows = len(df) if df is not None else 0`. -/
def mkPayload (env : FetchEnv) (fileBytes : List Nat) (registry_type : String) : Payload :=
  match env.parse fileBytes with
  | some df => ⟨fileBytes, df.rows.length, registry_type, some df⟩
  | none => ⟨fileBytes, 0, registry_type, none⟩

/-- The tail of `fetch_registry` after the `try/except` around the
generation call (`src/app.py:273-324`): the empty-id check, the cache
write, the poll loop (skipped when `reuse_download`), the signed-URL +
download step, and the payload/memo construction.  `preBytes`,
`preUrlReqs`, `preDownloads` and `obs0` carry what the recovery path (if
taken) already downloaded and the observations made so far. -/
def fetchAfterGenerate (env : FetchEnv)
    (siret start_iso end_iso registry_type key : String)
    (lastExports : LastExportCache) (memo : List (String × Payload))
    (exp : RegistryExport) (reuse : Bool) (preBytes : List Nat)
    (preUrlReqs : List String) (preDownloads : Nat)
    (obs0 : List (String × String)) : FetchRes :=
  if exp.export_id == "" then
    ⟨.err .launchFailed, lastExports, memo, 0, preUrlReqs, preDownloads, obs0, reuse⟩
  else
    let cache1 := cacheSet lastExports registry_type
      ⟨exp.export_id, siret, start_iso, end_iso⟩
    if reuse then
      let payload := mkPayload env preBytes registry_type
      ⟨.ok payload, cache1, memoInsert memo key payload, 0,
       preUrlReqs, preDownloads, obs0, true⟩
    else
      let p := pollLoop env.pollResp env.pollExtra exp.status
      let obs := obs0 ++ List.map (fun s => (exp.export_id, s)) p.obs
      match p.exit with
      | .timeout => ⟨.err .timeout, cache1, memo, p.polls, [], 0, obs, false⟩
      | .jobFailed => ⟨.err .jobFailed, cache1, memo, p.polls, [], 0, obs, false⟩
      | .pollApiError m => ⟨.err (.apiError m), cache1, memo, p.polls, [], 0, obs, false⟩
      | .success =>
        match env.urlFor exp.export_id with
        | .fail m =>
          ⟨.err (.apiError m), cache1, memo, p.polls, [exp.export_id], 0, obs, false⟩
        | .ok url =>
          match env.bytesFor url with
          | .fail m =>
            ⟨.err (.apiError m), cache1, memo, p.polls, [exp.export_id], 1, obs, false⟩
          | .ok fileBytes =>
            let payload := mkPayload env fileBytes registry_type
            ⟨.ok payload, cache1, memoInsert memo key payload, p.polls,
             [exp.export_id], 1, obs, false⟩

/-- `fetch_registry` (`src/app.py:230-324`): the session memo check, the
generation call with its cooldown-conflict classification
(`"moins de 5 minutes" in str(exc)`), the cache-based recovery
(signed URL + download for the cached id, job treated as `SUCCESSFUL`,
polling skipped), the user-visible conflict report when the cache does
not match, the verbatim surfacing of any other generation error, and the
shared tail `fetchAfterGenerate`. -/
def fetch_registry (env : FetchEnv)
    (siret start_iso end_iso registry_type : String)
    (lastExports : LastExportCache) (memo : List (String × Payload)) : FetchRes :=
  let key := cacheKey siret start_iso end_iso registry_type
  match memoLookup memo key with
  | some payload => ⟨.ok payload, lastExports, memo, 0, [], 0, [], false⟩
  | none =>
    match (generate_registry_export env.gen1 env.gen2).fst with
    | .fail msg =>
      if strContains msg cooldownNeedle then
        match cacheHit lastExports registry_type siret start_iso end_iso with
        | some last =>
          match env.urlFor last.id with
          | .fail m =>
            ⟨.err (.recoveryError m), lastExports, memo, 0, [last.id], 0, [], false⟩
          | .ok url =>
            match env.bytesFor url with
            | .fail m =>
              ⟨.err (.recoveryError m), lastExports, memo, 0, [last.id], 1, [], false⟩
            | .ok fileBytes =>
              fetchAfterGenerate env siret start_iso end_iso registry_type key
                lastExports memo ⟨last.id, "SUCCESSFUL"⟩ true fileBytes
                [last.id] 1 []
        | none =>
          ⟨.err .cooldownConflict, lastExports, memo, 0, [], 0, [], false⟩
      else ⟨.err (.apiError msg), lastExports, memo, 0, [], 0, [], false⟩
    | .ok exp =>
      fetchAfterGenerate env siret start_iso end_iso registry_type key
        lastExports memo exp false [] [] 0
        [(exp.export_id, exp.status)]

/-- `CompanyAccess` dataclass (`src/trackdechets_client.py:37-41`). -/
structure CompanyAccess where
  name : String
  siret : String
deriving DecidableEq, Repr

/-- The pieces of `st.session_state` that `main` manages
(`src/app.py:174-189`). -/
structure SessionState where
  companies : List CompanyAccess
  companies_token : String
  registry_cache : List (String × Payload)
  last_export_by_type : LastExportCache

/-- The token-change guard of `main` (`src/app.py:186-189`): when the
entered bearer token differs from the one the company list was loaded
with, the company list and the registry dataset cache are cleared and the
stored token updated; nothing else in the session state is touched. -/
def on_token_submit (st : SessionState) (token : String) : SessionState :=
  if st.companies_token == token then st
  else ⟨[], token, [], st.last_export_by_type⟩

/-- Models Python's per-character test behind `str.isdigit`: true for the
characters whose Unicode `Numeric_Type` is `Digit` or `Decimal`.  Beyond
ASCII `0`-`9` (48-57) this includes, among others, the superscripts
`¹` (185), `²` (178), `³` (179) and the Arabic-Indic digits `٠`-`٩`
(1632-1641); the table here covers those ranges, which suffice for every
character this development evaluates the predicate on. -/
def pyIsDigitChar (c : Char) : Bool :=
  decide ((48 ≤ c.toNat ∧ c.toNat ≤ 57) ∨ c.toNat = 178 ∨ c.toNat = 179
    ∨ c.toNat = 185 ∨ (1632 ≤ c.toNat ∧ c.toNat ≤ 1641))

/-- A decimal digit in the sense of the spec's "exactly 14 decimal
digits": one of the characters `0`-`9`. -/
def isDecimalDigitChar (c : Char) : Bool :=
  decide (48 ≤ c.toNat ∧ c.toNat ≤ 57)

/-- Python's `str.isdigit()`: non-empty and every character a digit. -/
def str_isdigit (s : String) : Bool :=
  !s.data.isEmpty && List.all s.data pyIsDigitChar

/-- The SIRET guard of `main` (`src/app.py:218-220`): the run is aborted
when `len(siret) != 14 or not siret.isdigit()`; `siret_valid` is the
acceptance condition. -/
def siret_valid (s : String) : Bool :=
  s.length == 14 && str_isdigit s

/-- The post-selection flow of `main` (`src/app.py:214-341`): once an
establishment identifier is selected, the SIRET guard runs first; only if
it passes is the export client used — the incoming then the outgoing
registry are fetched, threading the session caches.  `none` means the run
was aborted by the guard, before any generation/poll/download call. -/
def main_registry_flow (siret start_iso end_iso : String)
    (envIn envOut : FetchEnv) (lastExports : LastExportCache)
    (memo : List (String × Payload)) : Option (FetchRes × FetchRes) :=
  if siret_valid siret then
    let rIn := fetch_registry envIn siret start_iso end_iso "INCOMING" lastExports memo
    let rOut := fetch_registry envOut siret start_iso end_iso "OUTGOING"
      rIn.lastExports rIn.memo
    some (rIn, rOut)
  else none

/-! Concrete oracles and runs used to instantiate the theorems below.
Each `FetchEnv` fixes the server's answers for one scenario. -/

/-- Scenario: the generation conflicts with the cooldown and the cache
holds a matching entry for export id `EXP1`, whose signed URL and bytes
are served. -/
def c1wEnv : FetchEnv :=
  ⟨.fail "Un export a déjà été généré il y a moins de 5 minutes",
   .fail "Un export a déjà été généré il y a moins de 5 minutes",
   fun _ => .fail "unused", fun _ => 0,
   fun jid => if jid == "EXP1" then .ok "https://signed" else .fail "unknown id",
   fun u => if u == "https://signed" then .ok [7, 7, 7] else .fail "unknown url",
   fun _ => none⟩

/-- Cache holding the matching entry for `c1wEnv`. -/
def c1wCache : LastExportCache :=
  [("INCOMING", ⟨"EXP1", "11111111111111", "S", "E"⟩)]

/-- Status stream that never reaches a terminal state. -/
def c3Poll : Nat → Resp String := fun _ => .ok "PENDING"

/-- Iteration latencies that exhaust the 180-second budget after one
poll. -/
def c3Extra : Nat → Nat := fun _ => 200

/-- Scenario: generation starts a `PENDING` job that never terminates. -/
def c3Env : FetchEnv :=
  ⟨.ok ⟨"E3", "PENDING"⟩, .fail "unused", c3Poll, c3Extra,
   fun _ => .fail "unused", fun _ => .fail "unused", fun _ => none⟩

/-- Scenario: generation returns an already-`SUCCESSFUL` job `E4`. -/
def c4Env : FetchEnv :=
  ⟨.ok ⟨"E4", "SUCCESSFUL"⟩, .fail "unused",
   fun _ => .fail "no poll expected", fun _ => 0,
   fun jid => if jid == "E4" then .ok "https://u4" else .fail "unknown id",
   fun u => if u == "https://u4" then .ok [4] else .fail "unknown url",
   fun _ => none⟩

/-- First run of the C5 scenario: job `E1` is created `PENDING` and the
first poll reports `FAILED`. -/
def c5Env1 : FetchEnv :=
  ⟨.ok ⟨"E1", "PENDING"⟩, .fail "unused",
   fun _ => .ok "FAILED", fun _ => 0,
   fun _ => .fail "unused", fun _ => .fail "unused", fun _ => none⟩

/-- Second run of the C5 scenario: the new generation hits the cooldown
conflict and the signed URL and bytes of `E1` are served. -/
def c5Env2 : FetchEnv :=
  ⟨.fail "Un export a déjà été généré il y a moins de 5 minutes",
   .fail "Un export a déjà été généré il y a moins de 5 minutes",
   fun _ => .fail "unused", fun _ => 0,
   fun jid => if jid == "E1" then .ok "https://u1" else .fail "unknown id",
   fun u => if u == "https://u1" then .ok [1, 2, 3] else .fail "unknown url",
   fun _ => none⟩

/-- The first C5 run: ends in a job failure, cache entry for `E1` kept. -/
def c5Run1 : FetchRes :=
  fetch_registry c5Env1 "11111111111111" "S" "E" "INCOMING" [] []

/-- The second C5 run, on the session state the first one left behind. -/
def c5Run2 : FetchRes :=
  fetch_registry c5Env2 "11111111111111" "S" "E" "INCOMING"
    c5Run1.lastExports c5Run1.memo

/-- Scenario: a fresh job `E5` that needs one poll to become
`SUCCESSFUL`, then downloads fine. -/
def c5wEnv : FetchEnv :=
  ⟨.ok ⟨"E5", "PENDING"⟩, .fail "unused",
   fun _ => .ok "SUCCESSFUL", fun _ => 0,
   fun jid => if jid == "E5" then .ok "https://u5" else .fail "unknown id",
   fun u => if u == "https://u5" then .ok [5] else .fail "unknown url",
   fun _ => none⟩

/-- Scenario: a successful generation of job `E2` for establishment
`22222222222222`, range `s2`-`e2`. -/
def c6Env : FetchEnv :=
  ⟨.ok ⟨"E2", "SUCCESSFUL"⟩, .fail "unused",
   fun _ => .fail "no poll expected", fun _ => 0,
   fun jid => if jid == "E2" then .ok "https://u6" else .fail "unknown id",
   fun _ => .ok [9], fun _ => none⟩

/-- Cache entry for a different establishment and range, same direction,
predating the `c6Env` call. -/
def c6Cache0 : LastExportCache :=
  [("INCOMING", ⟨"E1", "11111111111111", "s1", "e1"⟩)]

/-- The C6 run: a successful generation under a different quadruple with
the same direction. -/
def c6Run : FetchRes :=
  fetch_registry c6Env "22222222222222" "s2" "e2" "INCOMING" c6Cache0 []

/-- Fourteen copies of the superscript-two character (U+00B2), a
character Python's `str.isdigit` accepts although it is not a decimal
digit. -/
def c7BadSiret : String := String.mk (List.replicate 14 '²')

/-- An ordinary 14-decimal-digit identifier. -/
def c7GoodSiret : String := "12345678901234"

/-- Scenario for the C7 flow runs: generation immediately `FAILED`. -/
def c7Env : FetchEnv :=
  ⟨.ok ⟨"E7", "FAILED"⟩, .fail "unused",
   fun _ => .fail "unused", fun _ => 0,
   fun _ => .fail "unused", fun _ => .fail "unused", fun _ => none⟩

/-- Dataset whose headers match the type-column alias "type". -/
def c8DfYes : DataFrame := ⟨["type"], [[.str "BSDD"]]⟩

/-- Dataset none of whose headers match a type-column alias. -/
def c8DfNo : DataFrame := ⟨["code dechet"], [[.str "BSDD"]]⟩

/-- Dataset with the header "Type de déchet" and two record types. -/
def c8DfW : DataFrame := ⟨["Type de déchet"], [[.str "BSDD"], [.str "BSFF"]]⟩

/-- Date parser for the C9 scenario: non-negative integer cells are day
ordinals, anything else is unparseable. -/
def c9Parse : CellValue → Option Nat :=
  fun c => match c with
  | .int n => if 0 ≤ n then some n.toNat else none
  | _ => none

/-- Dataset with a "date de creation" column holding one in-range date,
one unparseable value and one out-of-range date. -/
def c9Df : DataFrame :=
  ⟨["date de creation"], [[.int 5], [.str "notadate"], [.int 50]]⟩

/-- A session that loaded one company under token `token-old` and holds
a last-export cache entry. -/
def c10State : SessionState :=
  ⟨[⟨"ACME", "11111111111111"⟩], "token-old", [],
   [("INCOMING", ⟨"E1", "11111111111111", "S", "E"⟩)]⟩

theorem pollLoopGo_eq_success {s : String} (poll : Nat → Resp String) (extra : Nat → Nat)
    {f i elapsed : Nat} {obs : List String}
    (hterm : isTerminal s = true) (hfail : isFailedTerminal s = false) :
    pollLoopGo poll extra (f+1) s i elapsed obs = ⟨.success, i, obs, s⟩ := by
  simp only [pollLoopGo]
  rw [if_pos hterm, if_neg (by simp [hfail])]

theorem pollLoopGo_eq_jobFailed {s : String} (poll : Nat → Resp String) (extra : Nat → Nat)
    {f i elapsed : Nat} {obs : List String}
    (hfail : isFailedTerminal s = true) :
    pollLoopGo poll extra (f+1) s i elapsed obs = ⟨.jobFailed, i, obs, s⟩ := by
  have hterm : isTerminal s = true := by
    simp [isFailedTerminal] at hfail
    simp [isTerminal]
    rcases hfail with h | h <;> simp [h]
  simp only [pollLoopGo]
  rw [if_pos hterm, if_pos hfail]

theorem pollLoopGo_eq_timeout {s : String} (poll : Nat → Resp String) (extra : Nat → Nat)
    {f i elapsed : Nat} {obs : List String}
    (hterm : isTerminal s = false) (htime : 180 < elapsed) :
    pollLoopGo poll extra (f+1) s i elapsed obs = ⟨.timeout, i, obs, s⟩ := by
  simp only [pollLoopGo]
  rw [if_neg (by simp [hterm]), if_pos htime]

theorem pollLoopGo_eq_pollFail {s : String} {poll : Nat → Resp String} (extra : Nat → Nat)
    {f i elapsed : Nat} {obs : List String} {m : String}
    (hterm : isTerminal s = false) (htime : ¬ 180 < elapsed)
    (hp : poll (i+1) = .fail m) :
    pollLoopGo poll extra (f+1) s i elapsed obs = ⟨.pollApiError m, i+1, obs, s⟩ := by
  simp only [pollLoopGo]
  rw [if_neg (by simp [hterm]), if_neg htime, hp]

theorem pollLoopGo_step {s s' : String} {poll : Nat → Resp String} (extra : Nat → Nat)
    {f i elapsed : Nat} {obs : List String}
    (hterm : isTerminal s = false) (htime : ¬ 180 < elapsed)
    (hp : poll (i+1) = .ok s') :
    pollLoopGo poll extra (f+1) s i elapsed obs
      = pollLoopGo poll extra f s' (i+1) (elapsed + 5 + extra (i+1)) (obs ++ [s']) := by
  simp only [pollLoopGo]
  rw [if_neg (by simp [hterm]), if_neg htime, hp]

theorem terminal_not_failed {s : String}
    (hterm : isTerminal s = true) (hfail : isFailedTerminal s = false) :
    s = "SUCCESSFUL" := by
  simp [isTerminal] at hterm
  simp [isFailedTerminal] at hfail
  rcases hterm with (h1 | h1) | h1
  · exact h1
  · exact absurd h1 hfail.1
  · exact absurd h1 hfail.2

theorem pollBudget_step {elapsed e : Nat} (h : ¬ 180 < elapsed) :
    pollBudget (elapsed + 5 + e) + 1 ≤ pollBudget elapsed := by
  unfold pollBudget
  split <;> omega

theorem pollLoopGo_polls_le (poll : Nat → Resp String) (extra : Nat → Nat) :
    ∀ (fuel : Nat) (s : String) (i elapsed : Nat) (obs : List String),
    (pollLoopGo poll extra fuel s i elapsed obs).polls ≤ i + pollBudget elapsed := by
  intro fuel
  induction fuel with
  | zero =>
    intro s i elapsed obs
    simp only [pollLoopGo]
    omega
  | succ f ih =>
    intro s i elapsed obs
    simp only [pollLoopGo]
    split
    · split <;> simp
    · split
      · simp
      · rename_i hterm htime
        cases hp : poll (i+1) with
        | fail m =>
          dsimp only
          have : pollBudget elapsed = (180 - elapsed) / 5 + 1 := by
            unfold pollBudget; split <;> omega
          omega
        | ok s' =>
          dsimp only
          have h1 := ih s' (i+1) (elapsed + 5 + extra (i+1)) (obs ++ [s'])
          have h2 := pollBudget_step (e := extra (i+1)) htime
          omega

theorem pollLoopGo_timeout_of_nonterminal (poll : Nat → Resp String) (extra : Nat → Nat)
    (hp : ∀ j, ∃ s', poll j = .ok s' ∧ isTerminal s' = false) :
    ∀ (fuel : Nat) (s : String) (i elapsed : Nat) (obs : List String),
    isTerminal s = false →
    (pollLoopGo poll extra fuel s i elapsed obs).exit = .timeout := by
  intro fuel
  induction fuel with
  | zero => intro s i elapsed obs _; rfl
  | succ f ih =>
    intro s i elapsed obs hs
    by_cases htime : 180 < elapsed
    · rw [pollLoopGo_eq_timeout poll extra hs htime]
    · obtain ⟨s', hps, hs'⟩ := hp (i+1)
      rw [pollLoopGo_step extra hs htime hps]
      exact ih s' _ _ _ hs'

theorem pollLoopGo_obs_extends (poll : Nat → Resp String) (extra : Nat → Nat) :
    ∀ (fuel : Nat) (s : String) (i elapsed : Nat) (obs : List String),
    ∃ t, (pollLoopGo poll extra fuel s i elapsed obs).obs = obs ++ t := by
  intro fuel
  induction fuel with
  | zero => intro s i elapsed obs; exact ⟨[], by simp [pollLoopGo]⟩
  | succ f ih =>
    intro s i elapsed obs
    by_cases hterm : isTerminal s = true
    · by_cases hfail : isFailedTerminal s = true
      · rw [pollLoopGo_eq_jobFailed poll extra hfail]; exact ⟨[], by simp⟩
      · rw [pollLoopGo_eq_success poll extra hterm (by simpa using hfail)]
        exact ⟨[], by simp⟩
    · replace hterm : isTerminal s = false := by simpa using hterm
      by_cases htime : 180 < elapsed
      · rw [pollLoopGo_eq_timeout poll extra hterm htime]; exact ⟨[], by simp⟩
      · cases hps : poll (i+1) with
        | fail m => rw [pollLoopGo_eq_pollFail extra hterm htime hps]; exact ⟨[], by simp⟩
        | ok s' =>
          rw [pollLoopGo_step extra hterm htime hps]
          obtain ⟨t, ht⟩ := ih s' (i+1) (elapsed + 5 + extra (i+1)) (obs ++ [s'])
          exact ⟨s' :: t, by simp [ht]⟩

theorem pollLoopGo_success_observed (poll : Nat → Resp String) (extra : Nat → Nat) :
    ∀ (fuel : Nat) (s : String) (i elapsed : Nat) (obs : List String),
    (pollLoopGo poll extra fuel s i elapsed obs).exit = .success →
    s = "SUCCESSFUL" ∨ "SUCCESSFUL" ∈ (pollLoopGo poll extra fuel s i elapsed obs).obs := by
  intro fuel
  induction fuel with
  | zero => intro s i elapsed obs h; simp [pollLoopGo] at h
  | succ f ih =>
    intro s i elapsed obs h
    by_cases hterm : isTerminal s = true
    · by_cases hfail : isFailedTerminal s = true
      · rw [pollLoopGo_eq_jobFailed poll extra hfail] at h; simp at h
      · left; exact terminal_not_failed hterm (by simpa using hfail)
    · replace hterm : isTerminal s = false := by simpa using hterm
      by_cases htime : 180 < elapsed
      · rw [pollLoopGo_eq_timeout poll extra hterm htime] at h; simp at h
      · cases hps : poll (i+1) with
        | fail m => rw [pollLoopGo_eq_pollFail extra hterm htime hps] at h; simp at h
        | ok s' =>
          rw [pollLoopGo_step extra hterm htime hps] at h ⊢
          rcases ih s' (i+1) (elapsed + 5 + extra (i+1)) (obs ++ [s']) h with h1 | h1
          · right
            obtain ⟨t, ht⟩ := pollLoopGo_obs_extends poll extra f s' (i+1)
              (elapsed + 5 + extra (i+1)) (obs ++ [s'])
            rw [ht, ← h1]
            simp
          · right; exact h1

theorem cacheGet_set_same (c : LastExportCache) (k : String) (e : CacheEntry) :
    cacheGet (cacheSet c k e) k = some e := by
  simp [cacheGet, cacheSet, List.find?]

theorem find?_filter_ne (t : List (String × CacheEntry)) (k k' : String) (h : k' ≠ k) :
    List.find? (fun p => p.fst == k') (List.filter (fun p => p.fst != k) t)
      = List.find? (fun p => p.fst == k') t := by
  induction t with
  | nil => rfl
  | cons a t ih =>
    by_cases ha : a.fst = k
    · have hfa : (a.fst != k) = false := by simp [ha]
      have hka : (a.fst == k') = false := by
        simp only [beq_eq_false_iff_ne, ne_eq, ha]
        exact fun he => h he.symm
      simp only [List.filter_cons, hfa, Bool.false_eq_true, if_false]
      rw [List.find?_cons_of_neg _ (by simp [hka]), ih]
    · have hfa : (a.fst != k) = true := by simp [ha]
      simp only [List.filter_cons, hfa, if_true]
      by_cases ha' : a.fst = k'
      · rw [List.find?_cons_of_pos _ (by simp [ha']),
          List.find?_cons_of_pos _ (by simp [ha'])]
      · rw [List.find?_cons_of_neg _ (by simp [ha']),
          List.find?_cons_of_neg _ (by simp [ha']), ih]

theorem cacheGet_set_other (c : LastExportCache) (k k' : String) (e : CacheEntry)
    (h : k' ≠ k) : cacheGet (cacheSet c k e) k' = cacheGet c k' := by
  unfold cacheGet cacheSet
  rw [List.find?_cons_of_neg _ (by simp; exact fun he => h he.symm),
    find?_filter_ne c k k' h]

theorem cacheHit_fields {c : LastExportCache} {k si s e : String} {last : CacheEntry}
    (h : cacheHit c k si s e = some last) :
    cacheGet c k = some last ∧ last.siret = si ∧ last.start = s ∧ last.end_ = e
      ∧ (last.id == "") = false := by
  unfold cacheHit at h
  cases hg : cacheGet c k with
  | none => rw [hg] at h; exact absurd h (by simp)
  | some l =>
    rw [hg] at h
    dsimp only at h
    by_cases hc : (l.siret == si && l.start == s && l.end_ == e && l.id != "") = true
    · rw [if_pos hc] at h
      obtain rfl : l = last := by injection h
      simp only [Bool.and_eq_true, beq_iff_eq, bne_iff_ne, ne_eq] at hc
      refine ⟨rfl, hc.1.1.1, hc.1.1.2, hc.1.2, ?_⟩
      simp [hc.2]
    · rw [if_neg hc] at h; exact absurd h (by simp)

theorem pyIsDigitChar_ascii {c : Char} (h : c.toNat < 128) :
    pyIsDigitChar c = isDecimalDigitChar c := by
  unfold pyIsDigitChar isDecimalDigitChar
  rw [decide_eq_decide]
  omega

theorem fetch_registry_eq_gen_ok (env : FetchEnv)
    (siret start_iso end_iso registry_type : String)
    (cache : LastExportCache) (memo : List (String × Payload)) (exp : RegistryExport)
    (hm : memoLookup memo (cacheKey siret start_iso end_iso registry_type) = none)
    (hg : (generate_registry_export env.gen1 env.gen2).fst = .ok exp) :
    fetch_registry env siret start_iso end_iso registry_type cache memo
      = fetchAfterGenerate env siret start_iso end_iso registry_type
          (cacheKey siret start_iso end_iso registry_type) cache memo exp false [] [] 0
          [(exp.export_id, exp.status)] := by
  unfold fetch_registry
  dsimp only
  rw [hm]
  dsimp only
  rw [hg]

theorem fetch_registry_eq_gen_fail (env : FetchEnv)
    (siret start_iso end_iso registry_type msg : String)
    (cache : LastExportCache) (memo : List (String × Payload))
    (hm : memoLookup memo (cacheKey siret start_iso end_iso registry_type) = none)
    (hg : (generate_registry_export env.gen1 env.gen2).fst = .fail msg) :
    fetch_registry env siret start_iso end_iso registry_type cache memo
      = (if strContains msg cooldownNeedle = true then
          match cacheHit cache registry_type siret start_iso end_iso with
          | some last =>
            (match env.urlFor last.id with
             | .fail m => ⟨.err (.recoveryError m), cache, memo, 0, [last.id], 0, [], false⟩
             | .ok url =>
               match env.bytesFor url with
               | .fail m => ⟨.err (.recoveryError m), cache, memo, 0, [last.id], 1, [], false⟩
               | .ok fileBytes =>
                 fetchAfterGenerate env siret start_iso end_iso registry_type
                   (cacheKey siret start_iso end_iso registry_type)
                   cache memo ⟨last.id, "SUCCESSFUL"⟩ true fileBytes [last.id] 1 [])
          | none => ⟨.err .cooldownConflict, cache, memo, 0, [], 0, [], false⟩
         else ⟨.err (.apiError msg), cache, memo, 0, [], 0, [], false⟩) := by
  unfold fetch_registry
  dsimp only
  rw [hm]
  dsimp only
  rw [hg]

theorem fetchAfterGenerate_reuse_recovered (env : FetchEnv)
    (siret start_iso end_iso registry_type key : String)
    (cache : LastExportCache) (memo : List (String × Payload)) (ex : RegistryExport)
    (pb : List Nat) (pu : List String) (pd : Nat) (o : List (String × String)) :
    (fetchAfterGenerate env siret start_iso end_iso registry_type key cache memo
      ex true pb pu pd o).recovered = true := by
  unfold fetchAfterGenerate
  by_cases h : (ex.export_id == "") = true
  · rw [if_pos h]
  · rw [if_neg h]
    rfl

theorem pollLoop_polls_le (poll : Nat → Resp String) (extra : Nat → Nat) (status : String) :
    (pollLoop poll extra status).polls ≤ 37 := by
  have h := pollLoopGo_polls_le poll extra 38 status 0 0 []
  have hb : pollBudget 0 = 37 := by norm_num [pollBudget]
  unfold pollLoop
  omega

theorem pollLoop_terminal_success (poll : Nat → Resp String) (extra : Nat → Nat) :
    pollLoop poll extra "SUCCESSFUL" = ⟨.success, 0, [], "SUCCESSFUL"⟩ := by
  unfold pollLoop
  rw [show (38:Nat) = 37 + 1 from rfl]
  exact pollLoopGo_eq_success poll extra (by decide) (by decide)

theorem pollLoop_terminal_failed (poll : Nat → Resp String) (extra : Nat → Nat) :
    pollLoop poll extra "FAILED" = ⟨.jobFailed, 0, [], "FAILED"⟩ := by
  unfold pollLoop
  rw [show (38:Nat) = 37 + 1 from rfl]
  exact pollLoopGo_eq_jobFailed poll extra (by decide)

theorem pollLoop_terminal_canceled (poll : Nat → Resp String) (extra : Nat → Nat) :
    pollLoop poll extra "CANCELED" = ⟨.jobFailed, 0, [], "CANCELED"⟩ := by
  unfold pollLoop
  rw [show (38:Nat) = 37 + 1 from rfl]
  exact pollLoopGo_eq_jobFailed poll extra (by decide)

/-- Fuel beyond 37 iterations is irrelevant: any two fuels large enough
for the 180-second budget give the same poll-loop result, certifying
that the fuel-zero branch of `pollLoopGo` is unreachable from
`pollLoop`. -/
theorem pollLoopGo_fuel_irrelevant (poll : Nat → Resp String) (extra : Nat → Nat) :
    ∀ (f1 f2 : Nat) (s : String) (i elapsed : Nat) (obs : List String),
    186 ≤ 5 * f1 + elapsed → 186 ≤ 5 * f2 + elapsed → 1 ≤ f1 → 1 ≤ f2 →
    pollLoopGo poll extra f1 s i elapsed obs = pollLoopGo poll extra f2 s i elapsed obs := by
  intro f1
  induction f1 with
  | zero => intro f2 s i elapsed obs _ _ hf1 _; omega
  | succ a ih =>
    intro f2 s i elapsed obs h1 h2 _ hf2
    obtain ⟨b, rfl⟩ : ∃ b, f2 = b + 1 := ⟨f2 - 1, by omega⟩
    by_cases hterm : isTerminal s = true
    · by_cases hfail : isFailedTerminal s = true
      · rw [pollLoopGo_eq_jobFailed poll extra hfail,
          pollLoopGo_eq_jobFailed poll extra hfail]
      · rw [pollLoopGo_eq_success poll extra hterm (by simpa using hfail),
          pollLoopGo_eq_success poll extra hterm (by simpa using hfail)]
    · replace hterm : isTerminal s = false := by simpa using hterm
      by_cases htime : 180 < elapsed
      · rw [pollLoopGo_eq_timeout poll extra hterm htime,
          pollLoopGo_eq_timeout poll extra hterm htime]
      · cases hps : poll (i+1) with
        | fail m =>
          rw [pollLoopGo_eq_pollFail extra hterm htime hps,
            pollLoopGo_eq_pollFail extra hterm htime hps]
        | ok s' =>
          rw [pollLoopGo_step extra hterm htime hps,
            pollLoopGo_step extra hterm htime hps]
          exact ih b s' (i+1) (elapsed + 5 + extra (i+1)) (obs ++ [s'])
            (by omega) (by omega) (by omega) (by omega)

/-- Claim C1: when the generation call fails, `fetch_registry` classifies
the failure by searching the message for the cooldown indication.  A
cooldown conflict with a cache entry matching the requested
(establishment, direction, start, end) quadruple is recovered silently:
no poll is issued, the signed URL is requested exactly for the cached
export id and, when URL and download succeed, the call returns the
downloaded bytes with the recovery flag set.  A cooldown conflict with no
matching entry is reported as a user-visible conflict with no URL or
download request.  Any other failure is surfaced verbatim with no
further client call. -/
theorem c1_cooldown_classification (env : FetchEnv)
    (siret start_iso end_iso registry_type msg : String)
    (cache : LastExportCache) (memo : List (String × Payload))
    (hm : memoLookup memo (cacheKey siret start_iso end_iso registry_type) = none)
    (hg : (generate_registry_export env.gen1 env.gen2).fst = .fail msg) :
    (strContains msg cooldownNeedle = true →
      ∀ last, cacheHit cache registry_type siret start_iso end_iso = some last →
        ((fetch_registry env siret start_iso end_iso registry_type cache memo).polls = 0
          ∧ (fetch_registry env siret start_iso end_iso registry_type cache memo).urlRequests
              = [last.id])
        ∧ (∀ url bs, env.urlFor last.id = .ok url → env.bytesFor url = .ok bs →
            fetch_registry env siret start_iso end_iso registry_type cache memo
              = ⟨.ok (mkPayload env bs registry_type),
                 cacheSet cache registry_type ⟨last.id, siret, start_iso, end_iso⟩,
                 memoInsert memo (cacheKey siret start_iso end_iso registry_type)
                   (mkPayload env bs registry_type),
                 0, [last.id], 1, [], true⟩))
    ∧ (strContains msg cooldownNeedle = true →
        cacheHit cache registry_type siret start_iso end_iso = none →
        fetch_registry env siret start_iso end_iso registry_type cache memo
          = ⟨.err .cooldownConflict, cache, memo, 0, [], 0, [], false⟩)
    ∧ (strContains msg cooldownNeedle = false →
        fetch_registry env siret start_iso end_iso registry_type cache memo
          = ⟨.err (.apiError msg), cache, memo, 0, [], 0, [], false⟩) := by
  have hbase : fetch_registry env siret start_iso end_iso registry_type cache memo
      = (if strContains msg cooldownNeedle = true then
          match cacheHit cache registry_type siret start_iso end_iso with
          | some last =>
            (match env.urlFor last.id with
             | .fail m => ⟨.err (.recoveryError m), cache, memo, 0, [last.id], 0, [], false⟩
             | .ok url =>
               match env.bytesFor url with
               | .fail m => ⟨.err (.recoveryError m), cache, memo, 0, [last.id], 1, [], false⟩
               | .ok fileBytes =>
                 fetchAfterGenerate env siret start_iso end_iso registry_type
                   (cacheKey siret start_iso end_iso registry_type)
                   cache memo ⟨last.id, "SUCCESSFUL"⟩ true fileBytes [last.id] 1 [])
          | none => ⟨.err .cooldownConflict, cache, memo, 0, [], 0, [], false⟩
         else ⟨.err (.apiError msg), cache, memo, 0, [], 0, [], false⟩) := by
    unfold fetch_registry
    dsimp only
    rw [hm]
    dsimp only
    rw [hg]
  refine ⟨?_, ?_, ?_⟩
  · intro hcool last hhit
    have hid : (last.id == "") = false := (cacheHit_fields hhit).2.2.2.2
    have hrec : fetch_registry env siret start_iso end_iso registry_type cache memo
        = (match env.urlFor last.id with
           | .fail m => ⟨.err (.recoveryError m), cache, memo, 0, [last.id], 0, [], false⟩
           | .ok url =>
             match env.bytesFor url with
             | .fail m => ⟨.err (.recoveryError m), cache, memo, 0, [last.id], 1, [], false⟩
             | .ok fileBytes =>
               fetchAfterGenerate env siret start_iso end_iso registry_type
                 (cacheKey siret start_iso end_iso registry_type)
                 cache memo ⟨last.id, "SUCCESSFUL"⟩ true fileBytes [last.id] 1 []) := by
      rw [hbase, if_pos hcool, hhit]
    constructor
    · rw [hrec]
      cases hu : env.urlFor last.id with
      | fail m => exact ⟨rfl, rfl⟩
      | ok url =>
        dsimp only
        cases hb : env.bytesFor url with
        | fail m => exact ⟨rfl, rfl⟩
        | ok fileBytes =>
          simp only [fetchAfterGenerate, hid]
          exact ⟨rfl, rfl⟩
    · intro url bs hu hb
      rw [hrec, hu]
      dsimp only
      rw [hb]
      simp only [fetchAfterGenerate, hid]
      rfl
  · intro hcool hmiss
    rw [hbase, if_pos hcool, hmiss]
  · intro hcool
    rw [hbase, if_neg (by simp [hcool])]

/-- Claim C2: `generate_registry_export` sends the first date-range key
convention first; a success there is returned after exactly one request;
only a failure of the first attempt triggers the single second-convention
request, whose value is returned on success; when both attempts fail the
(second) error is propagated. -/
theorem c2_generate_variant_fallback (e e2 : RegistryExport) (r2 : Resp RegistryExport)
    (m1 m2 : String) :
    generate_registry_export (.ok e) r2 = (.ok e, 1)
    ∧ generate_registry_export (.fail m1) (.ok e2) = (.ok e2, 2)
    ∧ generate_registry_export (.fail m1) (.fail m2) = (.fail m2, 2) :=
  ⟨rfl, rfl, rfl⟩

/-- Claim C3: the poll loop always stops within the 180-second budget —
never more than 37 polls at the 5-second spacing; if no terminal status
is ever observed it reports a timeout, and `fetch_registry` turns that
timeout into a terminal error for the request, with no retry. -/
theorem c3_poll_timeout (poll : Nat → Resp String) (extra : Nat → Nat) (status : String)
    (env : FetchEnv) (siret start_iso end_iso registry_type : String)
    (cache : LastExportCache) (memo : List (String × Payload)) (exp : RegistryExport)
    (hm : memoLookup memo (cacheKey siret start_iso end_iso registry_type) = none)
    (hg : (generate_registry_export env.gen1 env.gen2).fst = .ok exp)
    (hid : (exp.export_id == "") = false) :
    (pollLoop poll extra status).polls ≤ 37
    ∧ (isTerminal status = false →
        (∀ j, ∃ s', poll j = .ok s' ∧ isTerminal s' = false) →
        (pollLoop poll extra status).exit = .timeout)
    ∧ ((pollLoop env.pollResp env.pollExtra exp.status).exit = .timeout →
        (fetch_registry env siret start_iso end_iso registry_type cache memo).outcome
            = .err .timeout
        ∧ (fetch_registry env siret start_iso end_iso registry_type cache memo).polls ≤ 37) := by
  refine ⟨pollLoop_polls_le poll extra status, ?_, ?_⟩
  · intro h1 h2
    exact pollLoopGo_timeout_of_nonterminal poll extra h2 38 status 0 0 [] h1
  · intro hexit
    rw [fetch_registry_eq_gen_ok env siret start_iso end_iso registry_type cache memo exp hm hg]
    simp only [fetchAfterGenerate, hid]
    rw [hexit]
    exact ⟨rfl, pollLoop_polls_le _ _ _⟩

/-- Claim C4: the poll loop exits as soon as a terminal status is
observed — in particular on the status returned by the generation
itself, before any poll: `SUCCESSFUL` exits as a success with zero
further polls, `FAILED`/`CANCELED` exit as a job failure with zero
further polls; at the orchestrator level an initial `SUCCESSFUL`
proceeds straight to the signed-URL request with zero polls, and an
initial `FAILED` returns the job-failure result (an error value, not an
exception) with zero polls and no download. -/
theorem c4_terminal_immediate (poll : Nat → Resp String) (extra : Nat → Nat)
    (f i elapsed : Nat) (obs : List String) (s : String)
    (env : FetchEnv) (siret start_iso end_iso registry_type jid : String)
    (cache : LastExportCache) (memo : List (String × Payload))
    (hm : memoLookup memo (cacheKey siret start_iso end_iso registry_type) = none) :
    pollLoop poll extra "SUCCESSFUL" = ⟨.success, 0, [], "SUCCESSFUL"⟩
    ∧ pollLoop poll extra "FAILED" = ⟨.jobFailed, 0, [], "FAILED"⟩
    ∧ pollLoop poll extra "CANCELED" = ⟨.jobFailed, 0, [], "CANCELED"⟩
    ∧ (isTerminal s = true →
        pollLoopGo poll extra (f+1) s i elapsed obs
          = if isFailedTerminal s then ⟨.jobFailed, i, obs, s⟩ else ⟨.success, i, obs, s⟩)
    ∧ ((generate_registry_export env.gen1 env.gen2).fst = .ok ⟨jid, "SUCCESSFUL"⟩ →
        (jid == "") = false →
        (fetch_registry env siret start_iso end_iso registry_type cache memo).polls = 0
        ∧ (fetch_registry env siret start_iso end_iso registry_type cache memo).urlRequests
            = [jid])
    ∧ ((generate_registry_export env.gen1 env.gen2).fst = .ok ⟨jid, "FAILED"⟩ →
        (jid == "") = false →
        fetch_registry env siret start_iso end_iso registry_type cache memo
          = ⟨.err .jobFailed,
             cacheSet cache registry_type ⟨jid, siret, start_iso, end_iso⟩,
             memo, 0, [], 0, [(jid, "FAILED")], false⟩) := by
  refine ⟨pollLoop_terminal_success poll extra, pollLoop_terminal_failed poll extra,
    pollLoop_terminal_canceled poll extra, ?_, ?_, ?_⟩
  · intro hterm
    by_cases hfail : isFailedTerminal s = true
    · rw [pollLoopGo_eq_jobFailed poll extra hfail, if_pos hfail]
    · replace hfail : isFailedTerminal s = false := by simpa using hfail
      rw [pollLoopGo_eq_success poll extra hterm hfail, if_neg (by simp [hfail])]
  · intro hg hid
    rw [fetch_registry_eq_gen_ok env siret start_iso end_iso registry_type cache memo _ hm hg]
    simp only [fetchAfterGenerate, hid]
    rw [pollLoop_terminal_success env.pollResp env.pollExtra]
    dsimp only
    cases hu : env.urlFor jid with
    | fail m => exact ⟨rfl, rfl⟩
    | ok url =>
      dsimp only
      cases hb : env.bytesFor url with
      | fail m => exact ⟨rfl, rfl⟩
      | ok fileBytes => exact ⟨rfl, rfl⟩
  · intro hg hid
    rw [fetch_registry_eq_gen_ok env siret start_iso end_iso registry_type cache memo _ hm hg]
    simp only [fetchAfterGenerate, hid]
    rw [pollLoop_terminal_failed env.pollResp env.pollExtra]
    rfl

/-- Claim C5, amended: on the fresh (non-recovery) path, bytes are
surfaced only when the server was actually observed to report
`SUCCESSFUL` for the job.  (As stated, the claim is false — see the
counterexample: the cooldown-recovery path reuses the cached export id
and fabricates the `SUCCESSFUL` status without re-checking the job, so
bytes can be surfaced for a job whose last observed status was
`FAILED`.) -/
theorem c5_fresh_success_observed (env : FetchEnv)
    (siret start_iso end_iso registry_type : String)
    (cache : LastExportCache) (memo : List (String × Payload)) (p : Payload)
    (hm : memoLookup memo (cacheKey siret start_iso end_iso registry_type) = none)
    (hok : (fetch_registry env siret start_iso end_iso registry_type cache memo).outcome
        = .ok p)
    (hfresh : (fetch_registry env siret start_iso end_iso registry_type cache memo).recovered
        = false) :
    ∃ eid, (eid, "SUCCESSFUL")
        ∈ (fetch_registry env siret start_iso end_iso registry_type cache memo).statusObs := by
  cases hg : (generate_registry_export env.gen1 env.gen2).fst with
  | fail msg =>
    exfalso
    rw [fetch_registry_eq_gen_fail env siret start_iso end_iso registry_type msg cache memo
      hm hg] at hok hfresh
    by_cases hcool : strContains msg cooldownNeedle = true
    · rw [if_pos hcool] at hok hfresh
      cases hhit : cacheHit cache registry_type siret start_iso end_iso with
      | none =>
        rw [hhit] at hok
        simp at hok
      | some last =>
        rw [hhit] at hok hfresh
        dsimp only at hok hfresh
        cases hu : env.urlFor last.id with
        | fail m => rw [hu] at hok; simp at hok
        | ok url =>
          rw [hu] at hok hfresh
          dsimp only at hok hfresh
          cases hb : env.bytesFor url with
          | fail m => rw [hb] at hok; simp at hok
          | ok fb =>
            rw [hb] at hfresh
            dsimp only at hfresh
            rw [fetchAfterGenerate_reuse_recovered] at hfresh
            exact absurd hfresh (by simp)
    · rw [if_neg hcool] at hok
      simp at hok
  | ok exp =>
    rw [fetch_registry_eq_gen_ok env siret start_iso end_iso registry_type cache memo exp
      hm hg] at hok ⊢
    by_cases hid : (exp.export_id == "") = true
    · simp only [fetchAfterGenerate, hid] at hok
      simp at hok
    · replace hid : (exp.export_id == "") = false := by simpa using hid
      simp only [fetchAfterGenerate, hid] at hok ⊢
      unfold pollLoop at hok ⊢
      cases hpe : (pollLoopGo env.pollResp env.pollExtra 38 exp.status 0 0 []).exit with
      | timeout => rw [hpe] at hok; simp at hok
      | jobFailed => rw [hpe] at hok; simp at hok
      | pollApiError m => rw [hpe] at hok; simp at hok
      | success =>
        rw [hpe] at hok
        dsimp only at hok ⊢
        have hobs := pollLoopGo_success_observed env.pollResp env.pollExtra
          38 exp.status 0 0 [] hpe
        refine ⟨exp.export_id, ?_⟩
        cases hu : env.urlFor exp.export_id with
        | fail m => rw [hu] at hok; simp at hok
        | ok url =>
          rw [hu] at hok
          dsimp only at hok ⊢
          cases hb : env.bytesFor url with
          | fail m => rw [hb] at hok; simp at hok
          | ok fb =>
            rcases hobs with h1 | h1
            · simp [h1]
            · have hmem : (exp.export_id, "SUCCESSFUL")
                  ∈ List.map (fun st => (exp.export_id, st))
                    (pollLoopGo env.pollResp env.pollExtra 38 exp.status 0 0 []).obs :=
                List.mem_map_of_mem _ h1
              simp [hmem]

/-- Claim C6, amended: the last-export cache is keyed by the registry
direction alone.  Each successful generation overwrites the direction's
single entry with the quadruple-carrying record (id, siret, start, end)
— even when the prior entry belonged to a different establishment or
range — and entries of other directions are untouched.  (As stated, the
claim is false — see the counterexample: an entry for a different
establishment and range with the same direction is not preserved.) -/
theorem c6_cache_overwrite (env : FetchEnv)
    (siret start_iso end_iso registry_type : String)
    (cache : LastExportCache) (memo : List (String × Payload)) (exp : RegistryExport)
    (hm : memoLookup memo (cacheKey siret start_iso end_iso registry_type) = none)
    (hg : (generate_registry_export env.gen1 env.gen2).fst = .ok exp)
    (hid : (exp.export_id == "") = false) :
    (fetch_registry env siret start_iso end_iso registry_type cache memo).lastExports
      = cacheSet cache registry_type ⟨exp.export_id, siret, start_iso, end_iso⟩
    ∧ cacheGet (fetch_registry env siret start_iso end_iso registry_type cache memo).lastExports
        registry_type = some ⟨exp.export_id, siret, start_iso, end_iso⟩
    ∧ (∀ rt', rt' ≠ registry_type →
        cacheGet (fetch_registry env siret start_iso end_iso registry_type cache memo).lastExports
          rt' = cacheGet cache rt') := by
  have hle : (fetch_registry env siret start_iso end_iso registry_type cache memo).lastExports
      = cacheSet cache registry_type ⟨exp.export_id, siret, start_iso, end_iso⟩ := by
    rw [fetch_registry_eq_gen_ok env siret start_iso end_iso registry_type cache memo _ hm hg]
    simp only [fetchAfterGenerate, hid]
    cases hpe : (pollLoop env.pollResp env.pollExtra exp.status).exit with
    | timeout => rfl
    | jobFailed => rfl
    | pollApiError m => rfl
    | success =>
      dsimp only
      cases hu : env.urlFor exp.export_id with
      | fail m => rfl
      | ok url =>
        dsimp only
        cases hb : env.bytesFor url with
        | fail m => rfl
        | ok fileBytes => rfl
  refine ⟨hle, ?_, ?_⟩
  · rw [hle]
    exact cacheGet_set_same cache registry_type ⟨exp.export_id, siret, start_iso, end_iso⟩
  · intro rt' hne
    rw [hle]
    exact cacheGet_set_other cache registry_type rt' ⟨exp.export_id, siret, start_iso, end_iso⟩ hne

/-- Claim C7, amended: the SIRET guard accepts exactly the identifiers of
length 14 all of whose characters satisfy Python's `str.isdigit`; for
ASCII identifiers this coincides with "exactly 14 decimal digits", a
rejected identifier aborts the run before any client call, and an
accepted one lets the registry flow proceed.  (As stated, the claim is
false — see the counterexample: `str.isdigit` also accepts non-decimal
Unicode digits such as the superscript two.) -/
theorem c7_siret_guard (s start_iso end_iso : String) (envIn envOut : FetchEnv)
    (cache : LastExportCache) (memo : List (String × Payload))
    (hascii : ∀ c ∈ s.data, c.toNat < 128) :
    (siret_valid s = true ↔ s.length = 14 ∧ List.all s.data isDecimalDigitChar = true)
    ∧ (siret_valid s = false →
        main_registry_flow s start_iso end_iso envIn envOut cache memo = none)
    ∧ (siret_valid s = true →
        (main_registry_flow s start_iso end_iso envIn envOut cache memo).isSome = true) := by
  refine ⟨?_, ?_, ?_⟩
  · unfold siret_valid str_isdigit
    simp only [Bool.and_eq_true, beq_iff_eq, Bool.not_eq_true', List.all_eq_true]
    constructor
    · rintro ⟨hlen, _, hall⟩
      exact ⟨hlen, fun c hc => by
        rw [← pyIsDigitChar_ascii (hascii c hc)]; exact hall c hc⟩
    · rintro ⟨hlen, hall⟩
      refine ⟨hlen, ?_, fun c hc => by
        rw [pyIsDigitChar_ascii (hascii c hc)]; exact hall c hc⟩
      have hdl : s.data.length = 14 := hlen
      cases hd : s.data with
      | nil => rw [hd] at hdl; simp at hdl
      | cons a t => simp
  · intro hv
    unfold main_registry_flow
    rw [if_neg (by simp [hv])]
  · intro hv
    unfold main_registry_flow
    rw [if_pos (by simp [hv])]
    rfl

/-- Claim C8, amended: when a recognized type-column alias matches (in
the fixed candidate order), filtering keeps exactly the rows whose cell
in that column, converted to a string, belongs to the selected set, and
leaves the headers unchanged; when no alias matches, the dataset is
returned unchanged — but no "could not filter" signal is produced: the
function's output is exactly the spec-modelled dataset component,
without the applied flag.  (As stated, the claim is false — see the
counterexample.) -/
theorem c8_type_filter (df : DataFrame) (sel : List String) (column : String) (j : Nat)
    (hfind : find_bsd_type_column df.headers = some column)
    (hidx : List.findIdx? (fun h => h == column) df.headers = some j) :
    (∀ r, r ∈ (filter_by_bsd_type df sel).rows ↔
        r ∈ df.rows ∧ cellToStr (r.getD j .na) ∈ sel)
    ∧ (filter_by_bsd_type df sel).headers = df.headers
    ∧ filter_by_bsd_type df sel = (filter_by_bsd_type_spec df sel).fst
    ∧ (∀ (df' : DataFrame) (sel' : List String),
        find_bsd_type_column df'.headers = none →
        filter_by_bsd_type df' sel' = df'
          ∧ filter_by_bsd_type_spec df' sel' = (df', false)) := by
  have hbody : filter_by_bsd_type df sel
      = ⟨df.headers, List.filter
          (fun r => List.contains sel (cellToStr (r.getD j .na))) df.rows⟩ := by
    unfold filter_by_bsd_type
    rw [hfind]
    dsimp only
    rw [hidx]
  refine ⟨?_, ?_, ?_, ?_⟩
  · intro r
    rw [hbody]
    simp [List.mem_filter]
  · rw [hbody]
  · unfold filter_by_bsd_type filter_by_bsd_type_spec
    rw [hfind]
    dsimp only
    rw [hidx]
  · intro df' sel' hnone
    constructor
    · unfold filter_by_bsd_type
      rw [hnone]
    · unfold filter_by_bsd_type_spec
      rw [hnone]

/-- Claim C9: when a recognized date-column alias matches (searched in
the fixed order), a row is kept iff its cell parses as a date lying in
the inclusive requested range — unparseable rows are excluded; when no
alias matches, the dataset is returned unchanged. -/
theorem c9_date_filter (parse : CellValue → Option Nat) (df : DataFrame)
    (start_date end_date : Nat) (date_col : String) (j : Nat)
    (hfind : List.findSome? (lookupNormalized df.headers)
        ["date", "date de creation", "date de reception", "date de prise en charge",
         "date d'envoi", "date d'emission", "createdat", "date creation"] = some date_col)
    (hidx : List.findIdx? (fun h => h == date_col) df.headers = some j) :
    (∀ r, r ∈ (filter_by_date parse df start_date end_date).rows ↔
        r ∈ df.rows ∧ ∃ d, parse (r.getD j .na) = some d
          ∧ start_date ≤ d ∧ d ≤ end_date)
    ∧ (∀ (df' : DataFrame),
        List.findSome? (lookupNormalized df'.headers)
          ["date", "date de creation", "date de reception", "date de prise en charge",
           "date d'envoi", "date d'emission", "createdat", "date creation"] = none →
        filter_by_date parse df' start_date end_date = df') := by
  constructor
  · intro r
    by_cases hemp : df.rows.isEmpty
    · have : df.rows = [] := by simpa [List.isEmpty_iff] using hemp
      unfold filter_by_date
      rw [if_pos hemp, this]
      simp
    · have hbody : filter_by_date parse df start_date end_date
        = ⟨df.headers, List.filter (fun r =>
            match parse (r.getD j .na) with
            | none => false
            | some d => decide (start_date ≤ d) && decide (d ≤ end_date)) df.rows⟩ := by
        unfold filter_by_date
        rw [if_neg hemp]
        dsimp only
        rw [hfind]
        dsimp only
        rw [hidx]
      rw [hbody]
      simp only [List.mem_filter]
      constructor
      · rintro ⟨hr, hp⟩
        refine ⟨hr, ?_⟩
        cases hpc : parse (r.getD j .na) with
        | none => rw [hpc] at hp; simp at hp
        | some d =>
          rw [hpc] at hp
          simp only [Bool.and_eq_true, decide_eq_true_eq] at hp
          exact ⟨d, rfl, hp.1, hp.2⟩
      · rintro ⟨hr, d, hpc, h1, h2⟩
        refine ⟨hr, ?_⟩
        rw [hpc]
        simp [h1, h2]
  · intro df' hnone
    by_cases hemp : df'.rows.isEmpty
    · unfold filter_by_date
      rw [if_pos hemp]
    · unfold filter_by_date
      rw [if_neg hemp]
      dsimp only
      rw [hnone]

/-- Claim C10: when the entered bearer token differs from the one the
session's company list was loaded with, the company list and the
registry dataset cache are cleared and the stored token replaced, while
the last-export cache is left untouched — so cooldown recovery still
sees the entries recorded under the previous credential. -/
theorem c10_token_change_frame (st : SessionState) (token : String)
    (h : st.companies_token ≠ token) :
    on_token_submit st token = ⟨[], token, [], st.last_export_by_type⟩
    ∧ (∀ rt si s e, cacheHit (on_token_submit st token).last_export_by_type rt si s e
        = cacheHit st.last_export_by_type rt si s e) := by
  have h1 : on_token_submit st token = ⟨[], token, [], st.last_export_by_type⟩ := by
    unfold on_token_submit
    rw [if_neg (by simpa using h)]
  exact ⟨h1, fun rt si s e => by rw [h1]⟩

/-- Witness for C1 at the `c1wEnv` scenario: silent recovery with zero
polls, the URL request for the cached id, and the downloaded bytes
returned. -/
theorem c1_cooldown_classification_witness :
    (fetch_registry c1wEnv "11111111111111" "S" "E" "INCOMING" c1wCache []).polls = 0
    ∧ (fetch_registry c1wEnv "11111111111111" "S" "E" "INCOMING" c1wCache []).urlRequests
        = ["EXP1"]
    ∧ fetch_registry c1wEnv "11111111111111" "S" "E" "INCOMING" c1wCache []
        = ⟨.ok (mkPayload c1wEnv [7, 7, 7] "INCOMING"),
           cacheSet c1wCache "INCOMING" ⟨"EXP1", "11111111111111", "S", "E"⟩,
           memoInsert [] (cacheKey "11111111111111" "S" "E" "INCOMING")
             (mkPayload c1wEnv [7, 7, 7] "INCOMING"),
           0, ["EXP1"], 1, [], true⟩ := by
  have h := c1_cooldown_classification c1wEnv "11111111111111" "S" "E" "INCOMING"
    "Un export a déjà été généré il y a moins de 5 minutes" c1wCache [] rfl rfl
  have ha := h.1 (by decide) ⟨"EXP1", "11111111111111", "S", "E"⟩ (by decide)
  exact ⟨ha.1.1, ha.1.2, ha.2 "https://signed" [7, 7, 7] rfl rfl⟩

/-- Witness for C3 at the `c3Env` scenario: the never-terminal stream
times out within the poll bound and the fetch reports the timeout. -/
theorem c3_poll_timeout_witness :
    (pollLoop c3Poll c3Extra "PENDING").polls ≤ 37
    ∧ (pollLoop c3Poll c3Extra "PENDING").exit = .timeout
    ∧ (fetch_registry c3Env "11111111111111" "S" "E" "INCOMING" [] []).outcome
        = .err .timeout := by
  have h := c3_poll_timeout c3Poll c3Extra "PENDING" c3Env "11111111111111" "S" "E"
    "INCOMING" [] [] ⟨"E3", "PENDING"⟩ rfl rfl (by decide)
  exact ⟨h.1, h.2.1 (by decide) (fun j => ⟨"PENDING", rfl, by decide⟩),
    (h.2.2 (by decide)).1⟩

/-- Witness for C4 at the `c4Env` scenario: the already-`SUCCESSFUL` job
goes straight to the signed-URL request with zero polls. -/
theorem c4_terminal_immediate_witness :
    pollLoop c4Env.pollResp c4Env.pollExtra "SUCCESSFUL"
      = ⟨.success, 0, [], "SUCCESSFUL"⟩
    ∧ (fetch_registry c4Env "11111111111111" "S" "E" "INCOMING" [] []).polls = 0
    ∧ (fetch_registry c4Env "11111111111111" "S" "E" "INCOMING" [] []).urlRequests
        = ["E4"] := by
  have h := c4_terminal_immediate c4Env.pollResp c4Env.pollExtra 0 0 0 [] "PENDING"
    c4Env "11111111111111" "S" "E" "INCOMING" "E4" [] [] rfl
  exact ⟨h.1, (h.2.2.2.2.1 rfl (by decide)).1, (h.2.2.2.2.1 rfl (by decide)).2⟩

/-- Counterexample to C5 as stated: in the first run job `E1` is observed
`PENDING` then `FAILED` and its cache entry is kept; in the second run
the cooldown recovery downloads and surfaces bytes for `E1` without any
status observation — the server never reported `SUCCESSFUL` for `E1` in
either run, its last observed status being `FAILED`. -/
theorem c5_counterexample :
    c5Run1.outcome = .err .jobFailed
    ∧ c5Run1.statusObs = [("E1", "PENDING"), ("E1", "FAILED")]
    ∧ c5Run2.outcome = .ok ⟨[1, 2, 3], 0, "INCOMING", none⟩
    ∧ c5Run2.urlRequests = ["E1"]
    ∧ c5Run2.recovered = true
    ∧ c5Run2.statusObs = []
    ∧ ("E1", "SUCCESSFUL") ∉ c5Run1.statusObs ++ c5Run2.statusObs := by decide

/-- Witness for the amended C5 at the `c5wEnv` scenario: a fresh run that
surfaces bytes, with the `SUCCESSFUL` observation present. -/
theorem c5_fresh_success_observed_witness :
    (fetch_registry c5wEnv "11111111111111" "S" "E" "INCOMING" [] []).outcome
      = .ok ⟨[5], 0, "INCOMING", none⟩
    ∧ ∃ eid, (eid, "SUCCESSFUL")
        ∈ (fetch_registry c5wEnv "11111111111111" "S" "E" "INCOMING" [] []).statusObs :=
  ⟨by decide,
   c5_fresh_success_observed c5wEnv "11111111111111" "S" "E" "INCOMING" [] []
     ⟨[5], 0, "INCOMING", none⟩ rfl (by decide) (by decide)⟩

/-- Counterexample to C6 as stated: the cache held a retrievable entry
for (establishment `11111111111111`, direction `INCOMING`, range
`s1`-`e1`); a successful generation for a different establishment and
range with the same direction overwrites it, and the old quadruple is no
longer retrievable. -/
theorem c6_counterexample :
    cacheHit c6Cache0 "INCOMING" "11111111111111" "s1" "e1"
      = some ⟨"E1", "11111111111111", "s1", "e1"⟩
    ∧ c6Run.outcome = .ok ⟨[9], 0, "INCOMING", none⟩
    ∧ cacheGet c6Run.lastExports "INCOMING"
        = some ⟨"E2", "22222222222222", "s2", "e2"⟩
    ∧ cacheHit c6Run.lastExports "INCOMING" "11111111111111" "s1" "e1" = none := by decide

/-- Witness for the amended C6 at the `c6Env` scenario. -/
theorem c6_cache_overwrite_witness :
    c6Run.lastExports = cacheSet c6Cache0 "INCOMING" ⟨"E2", "22222222222222", "s2", "e2"⟩
    ∧ cacheGet c6Run.lastExports "INCOMING"
        = some ⟨"E2", "22222222222222", "s2", "e2"⟩ := by
  have h := c6_cache_overwrite c6Env "22222222222222" "s2" "e2" "INCOMING" c6Cache0 []
    ⟨"E2", "SUCCESSFUL"⟩ rfl rfl (by decide)
  exact ⟨h.1, h.2.1⟩

/-- Counterexample to C7 as stated: fourteen superscript-two characters
pass the guard — `len == 14` holds and Python's `isdigit` accepts the
superscript — although the identifier does not consist of decimal
digits; the registry flow proceeds for it. -/
theorem c7_counterexample :
    siret_valid c7BadSiret = true
    ∧ c7BadSiret.length = 14
    ∧ List.all c7BadSiret.data isDecimalDigitChar = false
    ∧ (main_registry_flow c7BadSiret "S" "E" c7Env c7Env [] []).isSome = true := by decide

/-- Witness for the amended C7: for the ASCII identifier `c7GoodSiret`
the guard is equivalent to "exactly 14 decimal digits", and a rejected
identifier (here a 4-character one) aborts the flow. -/
theorem c7_siret_guard_witness :
    (siret_valid c7GoodSiret = true
      ↔ c7GoodSiret.length = 14 ∧ List.all c7GoodSiret.data isDecimalDigitChar = true)
    ∧ (siret_valid "12AB" = false →
        main_registry_flow "12AB" "S" "E" c7Env c7Env [] [] = none) := by
  have h1 := c7_siret_guard c7GoodSiret "S" "E" c7Env c7Env [] [] (by decide)
  have h2 := c7_siret_guard "12AB" "S" "E" c7Env c7Env [] [] (by decide)
  exact ⟨h1.1, h2.2.1⟩

/-- Counterexample to C8 as stated: the spec-modelled filter distinguishes
the applied case (flag `true`) from the could-not-filter case (flag
`false`), but the code returns the bare, unchanged dataframe in both —
no signal reaches the caller. -/
theorem c8_counterexample :
    filter_by_bsd_type_spec c8DfYes ["BSDD"] = (c8DfYes, true)
    ∧ filter_by_bsd_type_spec c8DfNo ["BSDD"] = (c8DfNo, false)
    ∧ filter_by_bsd_type c8DfYes ["BSDD"] = c8DfYes
    ∧ filter_by_bsd_type c8DfNo ["BSDD"] = c8DfNo := by decide

/-- Witness for the amended C8 at the dataset with header
"Type de déchet". -/
theorem c8_type_filter_witness :
    ([CellValue.str "BSDD"] ∈ (filter_by_bsd_type c8DfW ["BSDD"]).rows
      ↔ ([CellValue.str "BSDD"] ∈ c8DfW.rows
          ∧ cellToStr ([CellValue.str "BSDD"].getD 0 .na) ∈ ["BSDD"]))
    ∧ filter_by_bsd_type c8DfW ["BSDD"] = (filter_by_bsd_type_spec c8DfW ["BSDD"]).fst := by
  have h := c8_type_filter c8DfW ["BSDD"] "Type de déchet" 0 (by decide) (by decide)
  exact ⟨h.1 _, h.2.2.1⟩

/-- Witness for C9 at the `c9Df` dataset: the in-range parseable row is
characterized, and so is the unparseable one. -/
theorem c9_date_filter_witness :
    ([CellValue.int 5] ∈ (filter_by_date c9Parse c9Df 1 10).rows
      ↔ ([CellValue.int 5] ∈ c9Df.rows
          ∧ ∃ d, c9Parse ([CellValue.int 5].getD 0 .na) = some d ∧ 1 ≤ d ∧ d ≤ 10))
    ∧ ([CellValue.str "notadate"] ∈ (filter_by_date c9Parse c9Df 1 10).rows
      ↔ ([CellValue.str "notadate"] ∈ c9Df.rows
          ∧ ∃ d, c9Parse ([CellValue.str "notadate"].getD 0 .na) = some d
              ∧ 1 ≤ d ∧ d ≤ 10)) := by
  have h := c9_date_filter c9Parse c9Df 1 10 "date de creation" 0 (by decide) (by decide)
  exact ⟨h.1 _, h.1 _⟩

/-- Witness for C10 at the `c10State` session. -/
theorem c10_token_change_frame_witness :
    on_token_submit c10State "token-new"
      = ⟨[], "token-new", [], c10State.last_export_by_type⟩
    ∧ cacheHit (on_token_submit c10State "token-new").last_export_by_type
        "INCOMING" "11111111111111" "S" "E"
      = cacheHit c10State.last_export_by_type "INCOMING" "11111111111111" "S" "E" := by
  have h := c10_token_change_frame c10State "token-new" (by decide)
  exact ⟨h.1, h.2 "INCOMING" "11111111111111" "S" "E"⟩
